import Mathlib

/-!
Verification development for a small CPAL-based audio demo program
(`src/main.rs`).  The definitions below are shallow embeddings of the
program's data model and of its pure logic: configuration matching,
configuration formatting, CLI flag parsing, the sample-format selection in
`main`, and the state-updating audio callback installed by `build_stream`.
Machine integers are modelled as `Nat`, with an explicit `% 2 ^ 64` where
the source's `u64` counter can wrap.
-/

/-- Sample formats of the audio library (`cpal::SampleFormat`). -/
inductive SampleFormat where
  | i8 | i16 | i32 | i64
  | u8 | u16 | u32 | u64
  | f32 | f64
deriving DecidableEq

/-- Debug rendering of a `SampleFormat`, as Rust's `{:?}` prints it. -/
def sampleFormatDebug : SampleFormat → String
  | .i8 => "I8"
  | .i16 => "I16"
  | .i32 => "I32"
  | .i64 => "I64"
  | .u8 => "U8"
  | .u16 => "U16"
  | .u32 => "U32"
  | .u64 => "U64"
  | .f32 => "F32"
  | .f64 => "F64"

/-- `cpal::SupportedBufferSize`: either a bounded range of frame counts or
unknown.  The `u32` bounds are modelled as `Nat` (only compared and
printed, never computed with). -/
inductive SupportedBufferSize where
  | Range : Nat → Nat → SupportedBufferSize
  | Unknown : SupportedBufferSize
deriving DecidableEq

/-- `cpal::SupportedStreamConfigRange`: one configuration envelope a device
advertises (channels `u16`, sample-rate bounds `u32`). -/
structure SupportedStreamConfigRange where
  channels : Nat
  minSampleRate : Nat
  maxSampleRate : Nat
  bufferSize : SupportedBufferSize
  sampleFormat : SampleFormat
deriving DecidableEq

/-- `cpal::SupportedStreamConfig`: the system-selected default
configuration used as the comparison target (the spec's SelectedConfig). -/
structure SupportedStreamConfig where
  channels : Nat
  sampleRate : Nat
  bufferSize : SupportedBufferSize
  sampleFormat : SampleFormat
deriving DecidableEq

/-- `match_config` from `src/main.rs`: true iff channel counts agree, sample
formats agree, and the default's rate lies within the range's rate bounds
(both comparisons inclusive). -/
def match_config (range : SupportedStreamConfigRange) (dcfg : SupportedStreamConfig) : Bool :=
  range.channels == dcfg.channels
    && range.sampleFormat == dcfg.sampleFormat
    && dcfg.sampleRate ≥ range.minSampleRate
    && dcfg.sampleRate ≤ range.maxSampleRate

/-- The buffer-size description computed inside `fmt_cfg`:
`"<min>..=<max>"` for a bounded range, Debug fallback (`"Unknown"`) for the
only other shape. -/
def bufferSizeStr : SupportedBufferSize → String
  | .Range low high => Nat.repr low ++ "..=" ++ Nat.repr high
  | .Unknown => "Unknown"

/-- `fmt_cfg` from `src/main.rs`: one human-readable line for a supported
configuration range. -/
def fmt_cfg (cfg : SupportedStreamConfigRange) : String :=
  "channels: " ++ Nat.repr cfg.channels
    ++ ", sample_format: " ++ sampleFormatDebug cfg.sampleFormat
    ++ ", min_rate: " ++ Nat.repr cfg.minSampleRate
    ++ ", max_rate: " ++ Nat.repr cfg.maxSampleRate
    ++ ", buffer_size: " ++ bufferSizeStr cfg.bufferSize

/-- Everything `fmt_cfg` prints before the buffer-size portion (stated from
the spec's reading of the line, for the rendering theorem). -/
def fmtCfgHead (cfg : SupportedStreamConfigRange) : String :=
  "channels: " ++ Nat.repr cfg.channels
    ++ ", sample_format: " ++ sampleFormatDebug cfg.sampleFormat
    ++ ", min_rate: " ++ Nat.repr cfg.minSampleRate
    ++ ", max_rate: " ++ Nat.repr cfg.maxSampleRate
    ++ ", buffer_size: "

/-- The mutable state captured by the diagnostic callback in `build_stream`:
the `u64` invocation counter `n` and the `usize` `last_len`.  The captured
`last_time : Instant` is omitted: wall-clock time only appears inside the
printed text (the delta-time field) and plays no part in whether a warning
or a diagnostic line is emitted. -/
structure CallbackState where
  n : Nat
  lastLen : Nat
deriving DecidableEq

/-- Initial captured state in `build_stream`: `last_len = 0`, `n = 0`. -/
def initState : CallbackState where
  n := 0
  lastLen := 0

/-- What one callback invocation emits: whether the buffer-size-change
warning was printed, and, when the diagnostic line was printed, its numeric
fields (invocation counter, frames per callback, raw sample count). -/
structure CallbackOutput where
  warn : Bool
  diag : Option (Nat × Nat × Nat)
deriving DecidableEq

/-- Output of an invocation that prints nothing. -/
def silentOutput : CallbackOutput where
  warn := false
  diag := none

/-- The frames-per-callback value computed in the diagnostic branch:
`if ch > 0 { len / ch } else { len }`. -/
def framesOf (len ch : Nat) : Nat :=
  if ch > 0 then len / ch else len

/-- One invocation of the closure `build_stream` installs, for a buffer
`data`.  Mirrors the source line by line: everything is guarded by
`log_every > 0`; the `u64` counter wraps modulo `2 ^ 64`; the warning fires
when the length changed and a nonzero previous length was recorded;
`last_len` is then updated; the diagnostic line fires when the incremented
counter is divisible by `log_every`.  The buffer itself is returned
unchanged: this closure never writes to `data`. -/
def callbackStep {T : Type} (log_every channels : Nat) (s : CallbackState)
    (data : List T) : CallbackState × CallbackOutput × List T :=
  if log_every > 0 then
    let n := (s.n + 1) % 2 ^ 64
    let len := data.length
    let warn := len != s.lastLen && s.lastLen != 0
    let diag :=
      if n % log_every == 0 then
        some (n, framesOf len channels, len)
      else
        none
    (⟨n, len⟩, ⟨warn, diag⟩, data)
  else
    (s, silentOutput, data)

/-- A whole sequence of callback invocations: final state and the list of
per-invocation outputs. -/
def callbackRun {T : Type} (log_every channels : Nat) (s : CallbackState) :
    List (List T) → CallbackState × List CallbackOutput
  | [] => (s, [])
  | d :: ds =>
    let r := callbackStep log_every channels s d
    let rest := callbackRun log_every channels r.1 ds
    (rest.1, r.2.1 :: rest.2)

/-- The state the callback holds just before each invocation of a run
(the i-th entry is the recorded state entering invocation i). -/
def runStates {T : Type} (log_every channels : Nat) (s : CallbackState) :
    List (List T) → List CallbackState
  | [] => []
  | d :: ds =>
    s :: runStates log_every channels (callbackStep log_every channels s d).1 ds

/-- Modelled from the spec: the silence-policy variant of the stream
builder is one of the repository's near-duplicate programs and is not
among the sources here (only the diagnostic-policy `build_stream` is); per
the spec its audio callback, "on every audio-thread invocation, fill[s]
the entire output buffer with the zero value of the sample type". -/
def silenceCallback (T : Type) [Zero T] (data : List T) : List T :=
  data.map (fun _ => (0 : T))

/-- Modelled from the spec: the buffers produced over a whole playback
duration by the silence-policy callback, one per invocation. -/
def silenceRun (T : Type) [Zero T] (buffers : List (List T)) : List (List T) :=
  buffers.map (silenceCallback T)

/-- The four CLI fields of `struct Args` (`u32`, `u16`, `u32`, `u64`). -/
structure Args where
  sr : Nat
  ch : Nat
  buffer : Nat
  log_every : Nat
deriving DecidableEq

/-- The `default_value_t` defaults declared on `Args`. -/
def defaultArgs : Args where
  sr := 48000
  ch := 2
  buffer := 256
  log_every := 10

/-- Rust's `FromStr` for an unsigned integer of bit width `w`, which is
what clap's derived parser runs on each flag value: an optional leading
`'+'`, then at least one ASCII digit, and the decimal value must fit in
`w` bits; anything else is a parse error (`none`). -/
def parseUInt (w : Nat) (s : String) : Option Nat :=
  let cs := s.data
  let ds := if cs.head? == some '+' then cs.tail else cs
  if ds.isEmpty then none
  else if ds.all Char.isDigit then
    let v := ds.foldl (fun acc c => acc * 10 + (c.toNat - 48)) 0
    if v < 2 ^ w then some v else none
  else none

/-- One optional flag: absent means the declared default, present means the
value string goes through the width-`w` unsigned parser. -/
def parseFlag (w dflt : Nat) : Option String → Option Nat
  | none => some dflt
  | some s => parseUInt w s

/-- clap's parse of the four optional flags of `Args` (each argument is
the flag's value string when the flag was given).  `none` models the fatal
parse error with usage message; no further validation follows. -/
def parseArgs (sr ch buffer log_every : Option String) : Option Args :=
  match parseFlag 32 48000 sr, parseFlag 16 2 ch,
      parseFlag 32 256 buffer, parseFlag 64 10 log_every with
  | some a, some b, some c, some d => some ⟨a, b, c, d⟩
  | _, _, _, _ => none

/-- The sample-format selection in `main`:
`default_out_device.ok_or("No default output device")?
  .default_output_config()?.sample_format()`.
The environment is the default output device, when present, paired with
the outcome of its `default_output_config()` query. -/
def selectSampleFormat (dev : Option (Except String SupportedStreamConfig)) :
    Except String SampleFormat :=
  match dev with
  | none => Except.error "No default output device"
  | some (Except.error e) => Except.error e
  | some (Except.ok cfg) => Except.ok cfg.sampleFormat

/-- The `match sample_format` in `main`: `F32` proceeds to
`build_stream` (whose own outcome is the external `buildResult`), any
other format is `bail!("Unsupported sample format: ...")`.  An
`Except.error` propagates out of `main`, which exits non-zero. -/
def setupStream (dev : Option (Except String SupportedStreamConfig))
    (buildResult : Except String Unit) : Except String Unit :=
  match selectSampleFormat dev with
  | Except.error e => Except.error e
  | Except.ok SampleFormat.f32 => buildResult
  | Except.ok other => Except.error ("Unsupported sample format: " ++ sampleFormatDebug other)

/-- C2: for every `SupportedStreamConfigRange` with
`min_sample_rate ≤ max_sample_rate` and every selected default config,
`match_config` returns true iff the channel counts agree, the sample
formats agree, and the selected rate lies in the inclusive range
`[min_sample_rate, max_sample_rate]`. -/
theorem match_config_iff (range : SupportedStreamConfigRange)
    (dcfg : SupportedStreamConfig)
    (h : range.minSampleRate ≤ range.maxSampleRate) :
    match_config range dcfg = true ↔
      (range.channels = dcfg.channels ∧ range.sampleFormat = dcfg.sampleFormat ∧
        range.minSampleRate ≤ dcfg.sampleRate ∧ dcfg.sampleRate ≤ range.maxSampleRate) := by
  simp [match_config, ge_iff_le, and_assoc]

/-- Witness for `match_config_iff` at a concrete range and default. -/
theorem match_config_iff_witness :
    (⟨2, 44100, 48000, SupportedBufferSize.Unknown, SampleFormat.f32⟩ :
        SupportedStreamConfigRange).minSampleRate ≤
      (⟨2, 44100, 48000, SupportedBufferSize.Unknown, SampleFormat.f32⟩ :
        SupportedStreamConfigRange).maxSampleRate ∧
    (match_config ⟨2, 44100, 48000, SupportedBufferSize.Unknown, SampleFormat.f32⟩
        ⟨2, 48000, SupportedBufferSize.Unknown, SampleFormat.f32⟩ = true ↔
      ((⟨2, 44100, 48000, SupportedBufferSize.Unknown, SampleFormat.f32⟩ :
          SupportedStreamConfigRange).channels =
        (⟨2, 48000, SupportedBufferSize.Unknown, SampleFormat.f32⟩ :
          SupportedStreamConfig).channels ∧
      (⟨2, 44100, 48000, SupportedBufferSize.Unknown, SampleFormat.f32⟩ :
          SupportedStreamConfigRange).sampleFormat =
        (⟨2, 48000, SupportedBufferSize.Unknown, SampleFormat.f32⟩ :
          SupportedStreamConfig).sampleFormat ∧
      (⟨2, 44100, 48000, SupportedBufferSize.Unknown, SampleFormat.f32⟩ :
          SupportedStreamConfigRange).minSampleRate ≤
        (⟨2, 48000, SupportedBufferSize.Unknown, SampleFormat.f32⟩ :
          SupportedStreamConfig).sampleRate ∧
      (⟨2, 48000, SupportedBufferSize.Unknown, SampleFormat.f32⟩ :
          SupportedStreamConfig).sampleRate ≤
        (⟨2, 44100, 48000, SupportedBufferSize.Unknown, SampleFormat.f32⟩ :
          SupportedStreamConfigRange).maxSampleRate)) :=
  ⟨by decide, match_config_iff _ _ (by decide)⟩

/-- C10: `match_config` never looks at the buffer-size field of either
argument: two ranges that agree on channels, sample format and rate bounds
and two defaults that agree on channels, rate and sample format give the
same result, whatever their buffer sizes. -/
theorem match_config_ignores_buffer_size
    (r1 r2 : SupportedStreamConfigRange) (d1 d2 : SupportedStreamConfig)
    (hch : r1.channels = r2.channels) (hsf : r1.sampleFormat = r2.sampleFormat)
    (hmin : r1.minSampleRate = r2.minSampleRate)
    (hmax : r1.maxSampleRate = r2.maxSampleRate)
    (dch : d1.channels = d2.channels) (dsr : d1.sampleRate = d2.sampleRate)
    (dsf : d1.sampleFormat = d2.sampleFormat) :
    match_config r1 d1 = match_config r2 d2 := by
  simp [match_config, hch, hsf, hmin, hmax, dch, dsr, dsf]

/-- Witness for `match_config_ignores_buffer_size`: same fields except the
buffer sizes, which differ on both sides. -/
theorem match_config_ignores_buffer_size_witness :
    ((2 : Nat) = 2 ∧ SampleFormat.f32 = SampleFormat.f32 ∧ (44100 : Nat) = 44100 ∧
      (48000 : Nat) = 48000 ∧ (2 : Nat) = 2 ∧ (48000 : Nat) = 48000 ∧
      SampleFormat.f32 = SampleFormat.f32) ∧
    match_config ⟨2, 44100, 48000, SupportedBufferSize.Range 64 4096, SampleFormat.f32⟩
        ⟨2, 48000, SupportedBufferSize.Range 1 2, SampleFormat.f32⟩ =
      match_config ⟨2, 44100, 48000, SupportedBufferSize.Unknown, SampleFormat.f32⟩
        ⟨2, 48000, SupportedBufferSize.Unknown, SampleFormat.f32⟩ :=
  ⟨by decide,
    match_config_ignores_buffer_size _ _ _ _ rfl rfl rfl rfl rfl rfl rfl⟩

/-- C9: `fmt_cfg` is deterministic — identical inputs give byte-identical
output strings.  Side-effect freedom is reflected by the embedding itself:
`fmt_cfg` is a total function into `String`, with no effect context. -/
theorem fmt_cfg_deterministic (c1 c2 : SupportedStreamConfigRange) (h : c1 = c2) :
    fmt_cfg c1 = fmt_cfg c2 := by
  rw [h]

/-- Witness for `fmt_cfg_deterministic` at a concrete configuration. -/
theorem fmt_cfg_deterministic_witness :
    (⟨2, 44100, 48000, SupportedBufferSize.Range 64 4096, SampleFormat.f32⟩ :
        SupportedStreamConfigRange) =
      ⟨2, 44100, 48000, SupportedBufferSize.Range 64 4096, SampleFormat.f32⟩ ∧
    fmt_cfg ⟨2, 44100, 48000, SupportedBufferSize.Range 64 4096, SampleFormat.f32⟩ =
      fmt_cfg ⟨2, 44100, 48000, SupportedBufferSize.Range 64 4096, SampleFormat.f32⟩ :=
  ⟨rfl, fmt_cfg_deterministic _ _ rfl⟩

/-- C8: the buffer-size portion closes the `fmt_cfg` line; a bounded range
renders exactly as `"<min>..=<max>"`, and every other buffer-size shape
renders as the fallback string `"Unknown"`. -/
theorem fmt_cfg_buffer_size_rendering :
    (∀ cfg : SupportedStreamConfigRange,
        fmt_cfg cfg = fmtCfgHead cfg ++ bufferSizeStr cfg.bufferSize) ∧
    (∀ low high : Nat,
        bufferSizeStr (SupportedBufferSize.Range low high) =
          Nat.repr low ++ "..=" ++ Nat.repr high) ∧
    (∀ b : SupportedBufferSize,
        (∀ low high : Nat, b ≠ SupportedBufferSize.Range low high) →
          bufferSizeStr b = "Unknown") := by
  refine ⟨fun cfg => rfl, fun low high => rfl, fun b hb => ?_⟩
  cases b with
  | Range low high => exact absurd rfl (hb low high)
  | Unknown => rfl

/-- Witness for `fmt_cfg_buffer_size_rendering` at concrete buffer sizes. -/
theorem fmt_cfg_buffer_size_rendering_witness :
    fmt_cfg ⟨2, 44100, 48000, SupportedBufferSize.Range 64 4096, SampleFormat.f32⟩ =
      fmtCfgHead ⟨2, 44100, 48000, SupportedBufferSize.Range 64 4096, SampleFormat.f32⟩ ++
        bufferSizeStr (SupportedBufferSize.Range 64 4096) ∧
    bufferSizeStr (SupportedBufferSize.Range 64 4096) =
      Nat.repr 64 ++ "..=" ++ Nat.repr 4096 ∧
    bufferSizeStr SupportedBufferSize.Unknown = "Unknown" :=
  ⟨fmt_cfg_buffer_size_rendering.1 _, fmt_cfg_buffer_size_rendering.2.1 64 4096,
    fmt_cfg_buffer_size_rendering.2.2 SupportedBufferSize.Unknown
      (fun low high h => SupportedBufferSize.noConfusion h)⟩

/-- `callbackStep` with logging disabled does nothing: state, output and
buffer are untouched. -/
theorem callbackStep_zero {T : Type} (channels : Nat) (s : CallbackState)
    (d : List T) : callbackStep 0 channels s d = (s, silentOutput, d) := by
  simp [callbackStep]

/-- With logging enabled, the warning flag of one invocation is exactly
the source's condition `len != last_len && last_len != 0`. -/
theorem callbackStep_warn {T : Type} (log_every channels : Nat)
    (hle : 0 < log_every) (s : CallbackState) (d : List T) :
    (callbackStep log_every channels s d).2.1.warn =
      (d.length != s.lastLen && s.lastLen != 0) := by
  simp [callbackStep, hle]

/-- With logging enabled, one invocation records the buffer length and the
wrapped incremented counter. -/
theorem callbackStep_state {T : Type} (log_every channels : Nat)
    (hle : 0 < log_every) (s : CallbackState) (d : List T) :
    (callbackStep log_every channels s d).1 =
      ⟨(s.n + 1) % 2 ^ 64, d.length⟩ := by
  simp [callbackStep, hle]

/-- C5: whenever the diagnostic line is emitted, its raw sample count is
the buffer length and its frames-per-callback field is `len / channels`
(integer division) for a nonzero channel count, and the raw length itself
when the channel count is zero. -/
theorem frames_per_callback_eq {T : Type} (log_every channels : Nat)
    (s : CallbackState) (data : List T) (a f l : Nat)
    (h : (callbackStep log_every channels s data).2.1.diag = some (a, f, l)) :
    l = data.length ∧ (channels > 0 → f = data.length / channels) ∧
      (channels = 0 → f = data.length) := by
  by_cases hle : 0 < log_every
  · simp [callbackStep, hle] at h
    rcases h with ⟨hn, ha, hf, hl⟩
    subst hl
    refine ⟨rfl, ?_, ?_⟩
    · intro hch
      rw [← hf]
      simp [framesOf, hch]
    · intro hch
      rw [← hf]
      simp [framesOf, hch]
  · rw [Nat.pos_iff_ne_zero] at hle
    push_neg at hle
    subst hle
    simp [callbackStep_zero, silentOutput] at h

/-- Witness for `frames_per_callback_eq`: with `log_every = 1` and
2 channels, a 4-sample buffer logs 2 frames per callback. -/
theorem frames_per_callback_eq_witness :
    (callbackStep 1 2 initState ([5, 6, 7, 8] : List Int)).2.1.diag = some (1, 2, 4) ∧
      ((4 : Nat) = ([5, 6, 7, 8] : List Int).length ∧
        ((2 : Nat) > 0 → (2 : Nat) = ([5, 6, 7, 8] : List Int).length / 2) ∧
        ((2 : Nat) = 0 → (2 : Nat) = ([5, 6, 7, 8] : List Int).length)) :=
  ⟨rfl, frames_per_callback_eq 1 2 initState [5, 6, 7, 8] 1 2 4 rfl⟩

/-- C4: with `log_every ≥ 1` one invocation emits the diagnostic line iff
the (wrapped, incremented) invocation counter is divisible by `log_every`;
with `log_every = 0` no invocation of any run ever emits it. -/
theorem diag_emission_iff (T : Type) (channels : Nat) :
    (∀ (log_every : Nat) (s : CallbackState) (data : List T), log_every ≥ 1 →
        ((callbackStep log_every channels s data).2.1.diag.isSome = true ↔
          ((s.n + 1) % 2 ^ 64) % log_every = 0)) ∧
    (∀ (s : CallbackState) (buffers : List (List T)),
        ∀ out ∈ (callbackRun 0 channels s buffers).2, out.diag = none) := by
  constructor
  · intro log_every s data hle
    have hpos : 0 < log_every := hle
    simp [callbackStep, hpos]
  · intro s buffers
    induction buffers generalizing s with
    | nil => simp [callbackRun]
    | cons d ds ih =>
      intro out hmem
      rw [callbackRun] at hmem
      simp only [callbackStep_zero] at hmem
      rcases List.mem_cons.mp hmem with hout | hout
      · rw [hout]
        rfl
      · exact ih s out hout

/-- Witness for `diag_emission_iff`: `log_every = 10` on the first
invocation, and a two-buffer run with logging disabled. -/
theorem diag_emission_iff_witness :
    (10 : Nat) ≥ 1 ∧
      ((callbackStep 10 2 initState ([] : List Int)).2.1.diag.isSome = true ↔
        ((initState.n + 1) % 2 ^ 64) % 10 = 0) ∧
      silentOutput.diag = none :=
  ⟨by decide, (diag_emission_iff Int 2).1 10 initState [] (by decide),
    (diag_emission_iff Int 2).2 initState [[1], [2]] silentOutput (by decide)⟩

/-- Along any run, the warning flag of invocation i is exactly "this
buffer's length differs from the recorded previous length and that
recorded length is nonzero", where the recorded length is the `lastLen`
of the state entering invocation i.  The invariant hypothesis (a run with
logging disabled never records a length) holds of the initial state. -/
theorem warn_run_aux {T : Type} (log_every channels : Nat) :
    ∀ (buffers : List (List T)) (s : CallbackState),
      (log_every = 0 → s.lastLen = 0) → ∀ i, i < buffers.length →
        (((callbackRun log_every channels s buffers).2.getD i silentOutput).warn = true ↔
          ((buffers.getD i []).length ≠
              ((runStates log_every channels s buffers).getD i initState).lastLen ∧
            ((runStates log_every channels s buffers).getD i initState).lastLen ≠ 0)) := by
  intro buffers
  induction buffers with
  | nil =>
    intro s hinv i hi
    simp at hi
  | cons d ds ih =>
    intro s hinv i hi
    cases i with
    | zero =>
      rw [callbackRun, runStates]
      by_cases hle : 0 < log_every
      · simp [callbackStep_warn log_every channels hle s d]
      · have h0 : log_every = 0 := by omega
        subst h0
        simp [callbackStep_zero, silentOutput, hinv rfl]
    | succ j =>
      rw [callbackRun, runStates]
      have hinv2 : log_every = 0 → ((callbackStep log_every channels s d).1).lastLen = 0 := by
        intro h0
        subst h0
        rw [callbackStep_zero]
        exact hinv rfl
      have hj : j < ds.length := by
        simpa using hi
      simpa using ih (callbackStep log_every channels s d).1 hinv2 j hj

/-- C3: for every run from the initial captured state, whatever the
`log_every` value, the buffer-size-change warning of invocation i fires
iff that invocation's buffer length differs from the recorded previous
length (the `lastLen` entering invocation i) and that recorded length is
nonzero; in particular invocation 0 never warns. -/
theorem warn_emission_iff (T : Type) (log_every channels : Nat)
    (buffers : List (List T)) (i : Nat) (hi : i < buffers.length) :
    (((callbackRun log_every channels initState buffers).2.getD i silentOutput).warn = true ↔
      ((buffers.getD i []).length ≠
          ((runStates log_every channels initState buffers).getD i initState).lastLen ∧
        ((runStates log_every channels initState buffers).getD i initState).lastLen ≠ 0)) ∧
    (i = 0 →
      ((callbackRun log_every channels initState buffers).2.getD 0 silentOutput).warn = false) := by
  have hmain := warn_run_aux log_every channels buffers initState (fun _ => rfl) i hi
  refine ⟨hmain, fun h0 => ?_⟩
  subst h0
  cases buffers with
  | nil => simp at hi
  | cons d ds =>
    rw [runStates] at hmain
    simp [initState] at hmain
    simpa using hmain

/-- Witness for `warn_emission_iff`: a two-invocation run whose buffer
length changes between invocations, inspected at invocation 1. -/
theorem warn_emission_iff_witness :
    1 < ([[1, 2], [3, 4, 5]] : List (List Int)).length ∧
    (((((callbackRun 1 2 initState
            ([[1, 2], [3, 4, 5]] : List (List Int))).2.getD 1 silentOutput).warn = true) ↔
        ((([[1, 2], [3, 4, 5]] : List (List Int)).getD 1 []).length ≠
            ((runStates 1 2 initState
                ([[1, 2], [3, 4, 5]] : List (List Int))).getD 1 initState).lastLen ∧
          ((runStates 1 2 initState
              ([[1, 2], [3, 4, 5]] : List (List Int))).getD 1 initState).lastLen ≠ 0)) ∧
      ((1 : Nat) = 0 →
        ((callbackRun 1 2 initState
            ([[1, 2], [3, 4, 5]] : List (List Int))).2.getD 0 silentOutput).warn = false)) :=
  ⟨by decide, warn_emission_iff Int 1 2 [[1, 2], [3, 4, 5]] 1 (by decide)⟩

/-- C1: over the whole playback duration, every buffer the silence-policy
callback returns is length-preserving and consists entirely of the zero
value of the sample type. -/
theorem silence_policy_all_zero (T : Type) [Zero T] (buffers : List (List T)) :
    silenceRun T buffers = buffers.map (fun d => List.replicate d.length (0 : T)) := by
  simp [silenceRun, silenceCallback, List.map_const']

/-- What the derived CLI parser actually accepts for one flag value
(stated from the spec side, for the amended parsing claim): after an
optional single leading `'+'`, a nonempty all-digit string whose decimal
value fits in the flag's bit width.  Zero is accepted. -/
def validFlagValue (w : Nat) (s : String) : Prop :=
  ∃ ds : List Char, (s.data = ds ∨ s.data = '+' :: ds) ∧ ds ≠ [] ∧
    (∀ c ∈ ds, c.isDigit = true) ∧
    ds.foldl (fun acc c => acc * 10 + (c.toNat - 48)) 0 < 2 ^ w

/-- Validity of one optional flag: absent flags always parse (to their
default). -/
def validOptFlag (w : Nat) : Option String → Prop
  | none => True
  | some s => validFlagValue w s


/-- Success of the digit-checking core of the unsigned parser, for an
already-stripped character list. -/
theorem parse_core_isSome (w : Nat) (ds : List Char) :
    ((if ds.isEmpty then none
      else if ds.all Char.isDigit then
        (if ds.foldl (fun acc c => acc * 10 + (c.toNat - 48)) 0 < 2 ^ w then
          some (ds.foldl (fun acc c => acc * 10 + (c.toNat - 48)) 0)
        else none)
      else none) : Option Nat).isSome = true ↔
      (ds ≠ [] ∧ (∀ c ∈ ds, c.isDigit = true) ∧
        ds.foldl (fun acc c => acc * 10 + (c.toNat - 48)) 0 < 2 ^ w) := by
  by_cases hemp : ds.isEmpty
  · rw [if_pos hemp]
    rw [List.isEmpty_iff] at hemp
    exact iff_of_false (by simp) (fun h => h.1 hemp)
  · rw [if_neg hemp]
    rw [List.isEmpty_iff] at hemp
    by_cases hdig : ds.all Char.isDigit
    · rw [if_pos hdig]
      rw [List.all_eq_true] at hdig
      by_cases hlt : ds.foldl (fun acc c => acc * 10 + (c.toNat - 48)) 0 < 2 ^ w
      · rw [if_pos hlt]
        exact iff_of_true rfl ⟨hemp, hdig, hlt⟩
      · rw [if_neg hlt]
        exact iff_of_false (by simp) (fun h => hlt h.2.2)
    · rw [if_neg hdig]
      rw [List.all_eq_true] at hdig
      exact iff_of_false (by simp) (fun h => hdig h.2.1)

/-- The width-`w` unsigned parser succeeds exactly on valid flag values. -/
theorem parseUInt_isSome_iff (w : Nat) (s : String) :
    (parseUInt w s).isSome = true ↔ validFlagValue w s := by
  simp only [parseUInt, validFlagValue]
  cases hcs : s.data with
  | nil => simp
  | cons c rest =>
    simp only [List.head?_cons, List.tail_cons, beq_iff_eq, Option.some.injEq]
    by_cases hplus : c = '+'
    · rw [if_pos hplus]
      subst hplus
      rw [parse_core_isSome w rest]
      constructor
      · rintro ⟨hne, hdig, hlt⟩
        exact ⟨rest, Or.inr rfl, hne, hdig, hlt⟩
      · rintro ⟨ds, hd | hd, hne, hdig, hlt⟩
        · have hmem : '+' ∈ ds := hd ▸ List.mem_cons_self '+' rest
          have hbad := hdig _ hmem
          exact absurd hbad (by decide)
        · injection hd with h1 h2
          subst h2
          exact ⟨hne, hdig, hlt⟩
    · rw [if_neg hplus]
      rw [parse_core_isSome w (c :: rest)]
      constructor
      · rintro ⟨hne, hdig, hlt⟩
        exact ⟨c :: rest, Or.inl rfl, hne, hdig, hlt⟩
      · rintro ⟨ds, hd | hd, hne, hdig, hlt⟩
        · subst hd
          exact ⟨hne, hdig, hlt⟩
        · injection hd with h1 h2
          exact absurd h1 hplus

/-- One optional flag parses exactly when it is absent or its value string
is valid for the flag's width. -/
theorem parseFlag_isSome_iff (w dflt : Nat) (o : Option String) :
    (parseFlag w dflt o).isSome = true ↔ validOptFlag w o := by
  cases o with
  | none => simp [parseFlag, validOptFlag]
  | some s =>
    simp only [parseFlag, validOptFlag]
    exact parseUInt_isSome_iff w s

/-- The four-flag parse succeeds exactly when all four flag parses do. -/
theorem parseArgs_isSome_iff (a b c d : Option String) :
    (parseArgs a b c d).isSome = true ↔
      ((parseFlag 32 48000 a).isSome = true ∧ (parseFlag 16 2 b).isSome = true ∧
        (parseFlag 32 256 c).isSome = true ∧ (parseFlag 64 10 d).isSome = true) := by
  rw [parseArgs]
  rcases h1 : parseFlag 32 48000 a with _ | x1 <;>
    rcases h2 : parseFlag 16 2 b with _ | x2 <;>
      rcases h3 : parseFlag 32 256 c with _ | x3 <;>
        rcases h4 : parseFlag 64 10 d with _ | x4 <;> simp

/-- C6 counterexample: the value `"0"` for `--sr` is not a positive
integer, yet CLI parsing accepts it (no fatal parse error), so the claim
as stated fails. -/
theorem cli_zero_accepted :
    parseArgs (some "0") none none none = some ⟨0, 2, 256, 10⟩ := by
  rfl

/-- C6 amended: parsing of the four optional flags uses defaults 48000,
2, 256 and 10, and fails with a fatal parse error exactly when some
provided flag value is not a non-negative decimal integer (with optional
leading `'+'`) fitting the flag's representable range (`u32`, `u16`,
`u32`, `u64` respectively); zero is accepted everywhere. -/
theorem parseArgs_amended :
    parseArgs none none none none = some defaultArgs ∧
    ∀ sr ch buffer log_every : Option String,
      ((parseArgs sr ch buffer log_every).isSome = true ↔
        (validOptFlag 32 sr ∧ validOptFlag 16 ch ∧
          validOptFlag 32 buffer ∧ validOptFlag 64 log_every)) := by
  refine ⟨rfl, fun a b c d => ?_⟩
  rw [parseArgs_isSome_iff, parseFlag_isSome_iff, parseFlag_isSome_iff,
    parseFlag_isSome_iff, parseFlag_isSome_iff]

/-- Witness for `parseArgs_amended` at concrete flag values. -/
theorem parseArgs_amended_witness :
    (parseArgs (some "44100") none none (some "0")).isSome = true ↔
      (validOptFlag 32 (some "44100") ∧ validOptFlag 16 none ∧
        validOptFlag 32 none ∧ validOptFlag 64 (some "0")) :=
  parseArgs_amended.2 (some "44100") none none (some "0")

/-- With an F32 default config, `main` proceeds to `build_stream` and the
setup outcome is the build outcome. -/
theorem setupStream_ok_f32 (cfg : SupportedStreamConfig) (b : Except String Unit)
    (h : cfg.sampleFormat = SampleFormat.f32) :
    setupStream (some (Except.ok cfg)) b = b := by
  simp [setupStream, selectSampleFormat, h]

/-- With a non-F32 default config, `main` bails out before building. -/
theorem setupStream_ok_other (cfg : SupportedStreamConfig) (b : Except String Unit)
    (h : cfg.sampleFormat ≠ SampleFormat.f32) :
    setupStream (some (Except.ok cfg)) b =
      Except.error ("Unsupported sample format: " ++ sampleFormatDebug cfg.sampleFormat) := by
  cases hsf : cfg.sampleFormat <;>
    first
      | exact absurd hsf h
      | simp [setupStream, selectSampleFormat, hsf]

/-- C7: when the default-config query and the underlying stream build both
succeed, stream setup fails (an error propagates out of `main`, which then
exits non-zero) exactly when there is no default output device or the
default config's sample format is not F32; and in those two situations the
outcome never depends on the underlying build, i.e. no stream is built. -/
theorem setupStream_failure_iff
    (dev : Option (Except String SupportedStreamConfig))
    (buildResult : Except String Unit)
    (hdev : ∀ e, dev ≠ some (Except.error e))
    (hbuild : buildResult = Except.ok ()) :
    ((∃ e, setupStream dev buildResult = Except.error e) ↔
      (dev = none ∨
        ∃ cfg, dev = some (Except.ok cfg) ∧ cfg.sampleFormat ≠ SampleFormat.f32)) ∧
    ((dev = none ∨
        ∃ cfg, dev = some (Except.ok cfg) ∧ cfg.sampleFormat ≠ SampleFormat.f32) →
      ∀ b1 b2 : Except String Unit, setupStream dev b1 = setupStream dev b2) := by
  subst hbuild
  rcases dev with _ | exc
  · exact ⟨iff_of_true ⟨"No default output device", rfl⟩ (Or.inl rfl),
      fun _ b1 b2 => rfl⟩
  · rcases exc with e | cfg
    · exact absurd rfl (hdev e)
    · by_cases hf : cfg.sampleFormat = SampleFormat.f32
      · refine ⟨?_, ?_⟩
        · rw [setupStream_ok_f32 cfg _ hf]
          constructor
          · rintro ⟨e, he⟩
            exact Except.noConfusion he
          · rintro (h | ⟨cfg2, hc, hne⟩)
            · exact Option.noConfusion h
            · injection hc with hc2
              injection hc2 with hc3
              exact absurd (hc3 ▸ hf) hne
        · rintro (h | ⟨cfg2, hc, hne⟩) b1 b2
          · exact Option.noConfusion h
          · injection hc with hc2
            injection hc2 with hc3
            exact absurd (hc3 ▸ hf) hne
      · refine ⟨?_, fun _ b1 b2 => ?_⟩
        · rw [setupStream_ok_other cfg _ hf]
          exact iff_of_true ⟨_, rfl⟩ (Or.inr ⟨cfg, rfl, hf⟩)
        · rw [setupStream_ok_other cfg b1 hf, setupStream_ok_other cfg b2 hf]

/-- Witness for `setupStream_failure_iff`: a present default device whose
default config reports I16, with a successful underlying build. -/
theorem setupStream_failure_iff_witness :
    (∀ e, (some (Except.ok
          (⟨2, 48000, SupportedBufferSize.Unknown, SampleFormat.i16⟩ :
            SupportedStreamConfig)) :
        Option (Except String SupportedStreamConfig)) ≠ some (Except.error e)) ∧
    ((Except.ok () : Except String Unit) = Except.ok ()) ∧
    (((∃ e, setupStream
          (some (Except.ok
            (⟨2, 48000, SupportedBufferSize.Unknown, SampleFormat.i16⟩ :
              SupportedStreamConfig)))
          (Except.ok ()) = Except.error e) ↔
        ((some (Except.ok
            (⟨2, 48000, SupportedBufferSize.Unknown, SampleFormat.i16⟩ :
              SupportedStreamConfig)) :
          Option (Except String SupportedStreamConfig)) = none ∨
          ∃ cfg, (some (Except.ok
              (⟨2, 48000, SupportedBufferSize.Unknown, SampleFormat.i16⟩ :
                SupportedStreamConfig)) :
            Option (Except String SupportedStreamConfig)) = some (Except.ok cfg) ∧
            cfg.sampleFormat ≠ SampleFormat.f32)) ∧
      (((some (Except.ok
            (⟨2, 48000, SupportedBufferSize.Unknown, SampleFormat.i16⟩ :
              SupportedStreamConfig)) :
          Option (Except String SupportedStreamConfig)) = none ∨
          ∃ cfg, (some (Except.ok
              (⟨2, 48000, SupportedBufferSize.Unknown, SampleFormat.i16⟩ :
                SupportedStreamConfig)) :
            Option (Except String SupportedStreamConfig)) = some (Except.ok cfg) ∧
            cfg.sampleFormat ≠ SampleFormat.f32) →
        ∀ b1 b2 : Except String Unit,
          setupStream
              (some (Except.ok
                (⟨2, 48000, SupportedBufferSize.Unknown, SampleFormat.i16⟩ :
                  SupportedStreamConfig))) b1 =
            setupStream
              (some (Except.ok
                (⟨2, 48000, SupportedBufferSize.Unknown, SampleFormat.i16⟩ :
                  SupportedStreamConfig))) b2)) :=
  ⟨fun e h => Except.noConfusion (Option.some.inj h), rfl,
    setupStream_failure_iff _ _ (fun e h => Except.noConfusion (Option.some.inj h)) rfl⟩
